import Mathlib

/-!
# Verification of the `pysim` `Simulink` session class

Shallow embedding of `src/pysim/pysim.py` (the packaged variant named by the
claims; `src/src/pysim.py` is the legacy duplicate).

The class drives an external MATLAB engine.  All externally observable
engine/console activity is modelled as a trace of `Event`s appended by each
operation.  The Python instance attribute dictionary is modelled by the list
`Session.attrs` of attribute names that are present; this matters because the
source guards `connect`/`disconnect` with `hasattr(self, '__engine')` while
the assignments in the class body are written `self.__engine = ...`.  Under
Python's private-name mangling an *identifier* `__engine` occurring inside
`class Simulink` is rewritten to `_Simulink__engine`, but the *string
literal* `'__engine'` passed to `hasattr` is data and is not rewritten.  The
embedding keeps both spellings as distinct attribute names, exactly as
CPython does.
-/

namespace PySim

/-- One externally observable effect of a `Simulink` session: console notices
and warnings printed with `rich.print` (markup tags omitted), and calls into
the MATLAB engine. -/
inductive Event where
  /-- a green/yellow status notice printed to the console -/
  | notice (msg : String)
  /-- call `engine.start_matlab()` -/
  | startEngine
  /-- call `self.eng.addpath(dir, nargout=0)` -/
  | addpath (dir : String)
  /-- call `self.eng.eval(cmd, nargout=0)` -/
  | evalCmd (cmd : String)
  /-- call `self.eng.load_system(model, nargout=0)` -/
  | loadSystem (model : String)
  /-- call `self.eng.close_system(model, nargout=0)` -/
  | closeSystem (model : String)
  /-- call `self.eng.quit()` -/
  | quitEngine
  /-- a red warning printed to the console -/
  | warn (msg : String)
  /-- the per-name retrieval attempt of `run`: the `try` body that binds
  `out.<var>` to a workspace variable and converts it to a flat array -/
  | tryRead (var : String)
  deriving DecidableEq, Repr

/-- The Python exceptions the embedded operations raise themselves
(engine-internal failures are outside the model; per the spec they propagate
unmodified). -/
inductive PyErr where
  /-- exception `FileNotFoundError(msg)` raised by `__init__` -/
  | fileNotFound (msg : String)
  /-- exception `AttributeError` from reading `self.__engine` (that is, the
  mangled attribute `_Simulink__engine`) when it is absent -/
  | attributeError (attr : String)
  deriving DecidableEq, Repr

/-- Lexicographic strict comparison of character lists by code point, written
as a structurally recursive boolean so that concrete instances evaluate
inside the kernel.  Agrees with `List.Lex (· < ·)` (`charListLtB_iff`). -/
def charListLtB : List Char → List Char → Bool
  | _, [] => false
  | [], _ :: _ => true
  | a :: as, b :: bs =>
    if a < b then true else if b < a then false else charListLtB as bs

/-- Boolean form of `String` strict lexicographic order (code points). -/
def strLtB (a b : String) : Bool := charListLtB a.toList b.toList

/-- Boolean form of `String` lexicographic `≤` (code points): `¬ b < a`. -/
def strLeB (a b : String) : Bool := !(strLtB b a)

/-- Embeds `np.unique(xs).tolist()` for a list of Python strings: the
distinct elements in ascending lexicographic order.  numpy compares strings
by code point, which coincides with Lean's `String` order
(`strLeB_iff`).  Implemented as deduplication followed by insertion sort on
the boolean comparison, which keeps the whole function kernel-computable. -/
def npUnique (xs : List String) : List String :=
  List.insertionSort (fun a b => strLeB a b = true) xs.dedup

/-- Split a character list on `'/'`, keeping empty segments (structural
version of `str.split('/')`). -/
def splitOnSlash : List Char → List (List Char)
  | [] => [[]]
  | c :: cs =>
    match splitOnSlash cs with
    | [] => [[c]]
    | g :: gs => if c = '/' then [] :: g :: gs else (c :: g) :: gs

/-- Python `PurePath(p).name`: the final `/`-separated component of the path
text.  Paths are modelled as plain strings (POSIX separators); none of the
claims depends on platform-specific path normalisation such as collapsing of
duplicate or trailing separators. -/
def pathName (p : String) : String :=
  (((splitOnSlash p.toList).getLast?).getD []).asString

/-- Helper for `str.rfind`: index of the last occurrence of `c`, or `-1`. -/
def rfindAux (cs : List Char) (c : Char) (i : Nat) (acc : Int) : Int :=
  match cs with
  | [] => acc
  | x :: xs => rfindAux xs c (i + 1) (if x = c then Int.ofNat i else acc)

/-- Python `name.rfind(c)`: highest index of `c` in the string, `-1` if
absent. -/
def strRfind (s : String) (c : Char) : Int :=
  rfindAux s.toList c 0 (-1)

/-- Python `PurePath(p).stem`: the final component without its last suffix,
following CPython's rule `name[:i] if 0 < i < len(name) - 1 else name` with
`i = name.rfind('.')`. -/
def pathStem (p : String) : String :=
  let n := pathName p
  let i := strRfind n '.'
  if 0 < i ∧ i < (n.toList.length : Int) - 1 then (n.toList.take i.toNat).asString
  else n

/-- Join segments with `'/'` (inverse of `splitOnSlash`). -/
def joinSlash : List (List Char) → List Char
  | [] => []
  | [g] => g
  | g :: gs => g ++ '/' :: joinSlash gs

/-- Python `str(PurePath(p).parent)`: everything before the last separator.
Only the fact that `connect` registers *some* directory derived from the
model path matters to the claims; corner cases of `Path.parent` (root,
`".."`) are modelled coarsely, with `"."` for a separator-free path as in
CPython. -/
def pathParent (p : String) : String :=
  let parts := (splitOnSlash p.toList).dropLast
  if parts.isEmpty then "." else (joinSlash parts).asString

/-- The state of one `Simulink` instance together with the trace of events it
has caused.  `path`, `name` and `outvars` mirror the attributes
`_Simulink__path`, `_Simulink__name` and `outvars` (set once in `__init__`
and never rebound); `attrs` is the set of keys of the instance `__dict__`,
which is what `hasattr` and `del` operate on. -/
structure Session where
  path : String
  name : String
  outvars : List String
  attrs : List String
  trace : List Event
  deriving DecidableEq, Repr

namespace Simulink

/-- Embeds `Simulink.connect`.  Source:

```
if not hasattr(self, '__engine'):
    print("[bold green]Connecting to MATLAB engine...[/bold green]")
    self.__engine = engine.start_matlab()
    self.eng.addpath(str(self.__path.parent), nargout=0)
    print("[bold green]Loading model...[/bold green]")
    self.eng.eval(f"model = '...';", nargout=0)   # interpolates self.name
    self.eng.load_system(self.name, nargout=0)
else:
    print("[bold yellow]MATLAB engine already running.[/bold yellow]")
```

`hasattr(self, '__engine')` tests the literal attribute name `"__engine"`;
the assignment `self.__engine = ...` stores under the mangled name
`"_Simulink__engine"`. -/
def connect (s : Session) : Session :=
  if "__engine" ∈ s.attrs then
    { s with trace := s.trace ++ [Event.notice "MATLAB engine already running."] }
  else
    { s with
      attrs := s.attrs ++ ["_Simulink__engine"],
      trace := s.trace ++
        [Event.notice "Connecting to MATLAB engine...",
         Event.startEngine,
         Event.addpath (pathParent s.path),
         Event.notice "Loading model...",
         Event.evalCmd ("model = '" ++ s.name ++ "';"),
         Event.loadSystem s.name] }

/-- Embeds `Simulink.disconnect`.  Source:

```
if hasattr(self, '__engine'):
    print("[bold green]Disconnecting from MATLAB engine...[/bold green]")
    self.eng.close_system(self.name, nargout=0)
    self.eng.quit()
    del self.__engine
else:
    print("[bold yellow]MATLAB engine not running.[/bold yellow]")
```

Again the guard tests the unmangled `"__engine"` while `del self.__engine`
removes `"_Simulink__engine"`. -/
def disconnect (s : Session) : Session :=
  if "__engine" ∈ s.attrs then
    { s with
      attrs := s.attrs.erase "_Simulink__engine",
      trace := s.trace ++
        [Event.notice "Disconnecting from MATLAB engine...",
         Event.closeSystem s.name,
         Event.quitEngine] }
  else
    { s with trace := s.trace ++ [Event.notice "MATLAB engine not running."] }

/-- Embeds `Simulink.__init__(path, outvars=['tout'], connect=True)`.  The
filesystem is modelled as the list `fs` of existing paths;
`self.__path.exists()` is membership of the path text in `fs`.  Source
order: validate the path (raising `FileNotFoundError`), derive the stem,
normalise `np.unique(outvars + ['tout']).tolist()`, then optionally
`self.connect()`. -/
def init (fs : List String) (path : String) (outvars : List String)
    (connect : Bool) : Except PyErr Session :=
  if ¬ (path ∈ fs) then
    .error (.fileNotFound ("Path '" ++ path ++ "' does not exist"))
  else
    let s : Session :=
      { path := path
        name := pathStem path
        outvars := npUnique (outvars ++ ["tout"])
        attrs := ["_Simulink__path", "_Simulink__name", "outvars"]
        trace := [] }
    if connect then .ok (Simulink.connect s) else .ok s

end Simulink

/-- A parameter value accepted by `set_params` (`Union[str, float, int]`).
A float enters the command text only through Python's decimal rendering
`f"..."`; the embedding carries that rendering as `lit`, since IEEE-754
value semantics are never used by the code. -/
inductive PValue where
  /-- a Python `str` -/
  | pstr (s : String)
  /-- a Python `int`; its f-string interpolation is its decimal text,
  matching `toString` on `Int` -/
  | pint (n : Int)
  /-- a Python `float`, identified by its decimal rendering -/
  | pfloat (lit : String)
  deriving DecidableEq, Repr

/-- How one value appears in the composite command: the source replaces a
`str` value by its single-quoted form and interpolates numbers directly. -/
def renderPValue : PValue → String
  | .pstr s => "'" ++ s ++ "'"
  | .pint n => toString n
  | .pfloat lit => lit

/-- The composite command built by `set_params`: `cmd = ""` then, per entry
in the mapping's iteration (= insertion) order, `cmd += key + " = " + value
+ "; "` (the f-string spelled out). -/
def setParamsCmd (params : List (String × PValue)) : String :=
  params.foldl (fun cmd kv => cmd ++ (kv.1 ++ " = " ++ renderPValue kv.2 ++ "; ")) ""

/-- The spec's description of the same text, for comparison with
`setParamsCmd`: each entry is rendered as `name = value; ` (string values
quoted, numeric values literal) and the renderings are concatenated in
order. -/
def specParamsText : List (String × PValue) → String
  | [] => ""
  | kv :: rest => (kv.1 ++ " = " ++ renderPValue kv.2 ++ "; ") ++ specParamsText rest

/-- A flattened one-dimensional numeric sequence, the result of
`np.asarray(self.eng.workspace[var]).flatten()`. -/
abbrev Val := List Int

namespace Simulink

/-- Embeds `Simulink.set_params`.  Source:

```
cmd = ""
for key, value in params.items():
    if isinstance(value, str):
        value = f"'..."          # wraps the str value in single quotes
    cmd += f"... = ...; "        # key, value interpolated
self.eng.eval(cmd, nargout=0)
```

The single engine call goes through the property `self.eng`, which reads
`self.__engine` (mangled: `_Simulink__engine`) and raises `AttributeError`
when that attribute is absent. -/
def set_params (s : Session) (params : List (String × PValue)) :
    Except PyErr Session :=
  if "_Simulink__engine" ∈ s.attrs then
    .ok { s with trace := s.trace ++ [Event.evalCmd (setParamsCmd params)] }
  else
    .error (.attributeError "_Simulink__engine")

/-- The simulation command of `run`: the triple-quoted f-string

```
cmd = f"""
        set_param(model, 'StartTime', '...', 'StopTime', '...');
        out = sim(model);
        """
```

with its literal newlines and indentation, and the `start`/`stop` bounds
interpolated as decimal text. -/
def runSimCmd (start stop : Int) : String :=
  "\n        set_param(model, 'StartTime', '" ++ toString start
    ++ "', 'StopTime', '" ++ toString stop
    ++ "');\n        out = sim(model);\n        "

/-- The output-retrieval loop of `run`.  Source:

```
out = {}
for var in self.outvars:
    try:
        self.eng.eval(f"... = out....;", nargout=0)   # var = out.var;
        out[var] = np.asarray(self.eng.workspace[var]).flatten()
    except:
        print(f"[bold red]Could not read '...'[/bold red]")
```

`env var` abstracts the whole `try` body for one name: `some x` means the
field bind and the conversion succeeded with flattened value `x`; `none`
means some step of it raised (missing field on the result object, or
conversion failure).  Each iteration contributes a `tryRead` event; a failed
iteration additionally prints the warning and adds nothing to the mapping. -/
def readOutputs (env : String → Option Val) :
    List String → List Event × List (String × Val)
  | [] => ([], [])
  | v :: vs =>
    let rest := readOutputs env vs
    match env v with
    | some x => (Event.tryRead v :: rest.1, (v, x) :: rest.2)
    | none =>
      (Event.tryRead v :: Event.warn ("Could not read '" ++ v ++ "'") :: rest.1,
       rest.2)

/-- Embeds `Simulink.run(start, stop)`: submit the simulation command (the
first engine use; raises `AttributeError` through `self.eng` when the
mangled engine attribute is absent), then run the retrieval loop over
`self.outvars`, returning the accumulated mapping. -/
def run (env : String → Option Val) (s : Session) (start stop : Int) :
    Except PyErr (Session × List (String × Val)) :=
  if "_Simulink__engine" ∈ s.attrs then
    let r := readOutputs env s.outvars
    .ok ({ s with trace := s.trace ++ Event.evalCmd (runSimCmd start stop) :: r.1 },
         r.2)
  else
    .error (.attributeError "_Simulink__engine")

end Simulink

/-- The variable names of the `tryRead` events in a trace fragment, in
order: the sequence of per-name retrieval attempts made by `run`. -/
def readAttempts : List Event → List String
  | [] => []
  | Event.tryRead v :: es => v :: readAttempts es
  | _ :: es => readAttempts es

/-- The number of engine starts (`engine.start_matlab()` calls) recorded in
a trace. -/
def countStarts (t : List Event) : Nat :=
  t.countP (fun e => match e with | Event.startEngine => true | _ => false)

/-!
## Heap model for the list-aliasing claim

Python default argument values are evaluated once; `__init__`'s default
`outvars=['tout']` is one shared list object.  To state that construction
does not mutate the caller's list, Python lists are modelled as heap cells.
The two list expressions `__init__` evaluates, `outvars + ['tout']` and
`np.unique(...).tolist()`, both *allocate* fresh cells; no operation in
`__init__` writes to an existing cell.
-/

/-- A heap of Python list objects holding strings; references are indices. -/
structure PyHeap where
  cells : List (List String)
  deriving Repr

/-- Dereference: the list stored in cell `r` (unused default for dangling
references). -/
def PyHeap.get (h : PyHeap) (r : Nat) : List String :=
  h.cells.getD r []

/-- Allocate a fresh list object, returning the new heap and its
reference. -/
def PyHeap.alloc (h : PyHeap) (v : List String) : PyHeap × Nat :=
  ({ cells := h.cells ++ [v] }, h.cells.length)

/-- The outvars normalisation of `__init__` under explicit heap semantics:
`outvars + ['tout']` allocates a fresh concatenation (list `+` never mutates
its operands), and `np.unique(...).tolist()` allocates a fresh result list.
Returns the final heap and a reference to the new `self.outvars`. -/
def initOutvarsAlloc (h : PyHeap) (r : Nat) : PyHeap × Nat :=
  let p1 := h.alloc (h.get r ++ ["tout"])
  p1.1.alloc (npUnique (p1.1.get p1.2))

/-- A concrete never-connected session: the result of
`Simulink.init ["/m/model.slx"] "/m/model.slx" ["y", "tout", "y"] false`. -/
def exampleSession : Session :=
  { path := "/m/model.slx"
    name := "model"
    outvars := ["tout", "y"]
    attrs := ["_Simulink__path", "_Simulink__name", "outvars"]
    trace := [] }

/-- A concrete connected session: `exampleSession` after one `connect`. -/
def exampleConnected : Session :=
  Simulink.connect exampleSession

/-- A concrete engine-result oracle for witnesses: the simulation result
object exposes only the field `tout` (with flattened value `[0, 1]`); every
other output name fails to read. -/
def envTout : String → Option Val :=
  fun v => if v = "tout" then some [0, 1] else none

/-!
## Properties of the string order and of `npUnique`
-/

theorem charListLtB_iff (as bs : List Char) :
    charListLtB as bs = true ↔ List.Lex (· < ·) as bs := by
  induction as generalizing bs with
  | nil =>
    cases bs with
    | nil => exact iff_of_false (by simp [charListLtB]) (fun h => nomatch h)
    | cons b bs => exact iff_of_true (by simp [charListLtB]) List.Lex.nil
  | cons a as ih =>
    cases bs with
    | nil => exact iff_of_false (by simp [charListLtB]) (fun h => nomatch h)
    | cons b bs =>
      simp only [charListLtB]
      rcases lt_trichotomy a b with h | h | h
      · rw [if_pos h]
        exact iff_of_true rfl (List.Lex.rel h)
      · subst h
        rw [if_neg (lt_irrefl a), if_neg (lt_irrefl a)]
        constructor
        · exact fun h' => List.Lex.cons ((ih bs).mp h')
        · intro h'
          cases h' with
          | cons h'' => exact (ih bs).mpr h''
          | rel h'' => exact absurd h'' (lt_irrefl a)
      · rw [if_neg (lt_asymm h), if_pos h]
        refine iff_of_false (by simp) (fun h' => ?_)
        cases h' with
        | cons h'' => exact absurd h (lt_irrefl a)
        | rel h'' => exact absurd h'' (lt_asymm h)

theorem strLtB_iff (a b : String) : strLtB a b = true ↔ a < b :=
  (charListLtB_iff a.toList b.toList).trans String.lt_iff_toList_lt.symm

theorem strLeB_iff (a b : String) : strLeB a b = true ↔ a ≤ b := by
  unfold strLeB
  rcases hb : strLtB b a with _ | _
  · refine iff_of_true rfl (not_lt.mp fun hc => ?_)
    rw [(strLtB_iff b a).mpr hc] at hb
    simp at hb
  · exact iff_of_false (by simp)
      (fun hle => absurd ((strLtB_iff b a).mp hb) (not_lt.mpr hle))

theorem npUnique_perm_dedup (xs : List String) : (npUnique xs).Perm xs.dedup := by
  unfold npUnique
  exact List.perm_insertionSort _ _

theorem npUnique_nodup (xs : List String) : (npUnique xs).Nodup :=
  (npUnique_perm_dedup xs).nodup_iff.mpr xs.nodup_dedup

theorem mem_npUnique {a : String} {xs : List String} :
    a ∈ npUnique xs ↔ a ∈ xs :=
  ((npUnique_perm_dedup xs).mem_iff).trans List.mem_dedup

theorem npUnique_sorted (xs : List String) :
    (npUnique xs).Sorted (· ≤ ·) := by
  have h : (npUnique xs).Sorted (fun a b => strLeB a b = true) := by
    haveI : IsTotal String (fun a b => strLeB a b = true) :=
      ⟨fun a b => by
        rcases le_total a b with h | h
        · exact Or.inl ((strLeB_iff a b).mpr h)
        · exact Or.inr ((strLeB_iff b a).mpr h)⟩
    haveI : IsTrans String (fun a b => strLeB a b = true) :=
      ⟨fun a b c hab hbc => (strLeB_iff a c).mpr
        (le_trans ((strLeB_iff a b).mp hab) ((strLeB_iff b c).mp hbc))⟩
    unfold npUnique
    exact List.sorted_insertionSort _ _
  exact h.imp fun hab => (strLeB_iff _ _).mp hab

theorem npUnique_sorted_lt (xs : List String) :
    (npUnique xs).Sorted (· < ·) :=
  (npUnique_sorted xs).lt_of_le (npUnique_nodup xs)

theorem npUnique_perm_congr {xs ys : List String} (h : xs.Perm ys) :
    npUnique xs = npUnique ys := by
  refine List.eq_of_perm_of_sorted ?_ (npUnique_sorted xs) (npUnique_sorted ys)
  refine (List.perm_ext_iff_of_nodup (npUnique_nodup xs) (npUnique_nodup ys)).mpr ?_
  intro a
  rw [mem_npUnique, mem_npUnique]
  exact ⟨fun hm => h.mem_iff.mp hm, fun hm => h.mem_iff.mpr hm⟩

/-!
## Inversion and unfolding lemmas for the session operations
-/

theorem connect_outvars (s : Session) :
    (Simulink.connect s).outvars = s.outvars := by
  unfold Simulink.connect
  split <;> rfl

theorem connect_attrs_of_not_mem (s : Session) (h : "__engine" ∉ s.attrs) :
    (Simulink.connect s).attrs = s.attrs ++ ["_Simulink__engine"] := by
  unfold Simulink.connect
  rw [if_neg h]

theorem init_ok_outvars {fs : List String} {path : String} {vs : List String}
    {c : Bool} {s : Session} (h : Simulink.init fs path vs c = .ok s) :
    s.outvars = npUnique (vs ++ ["tout"]) := by
  unfold Simulink.init at h
  by_cases hp : path ∈ fs
  · rw [if_neg (not_not_intro hp)] at h
    cases c with
    | false =>
      rw [if_neg (by simp)] at h
      cases h
      rfl
    | true =>
      rw [if_pos rfl] at h
      cases h
      rw [connect_outvars]
  · rw [if_pos hp] at h
    cases h

theorem readOutputs_snd (env : String → Option Val) (l : List String) :
    (Simulink.readOutputs env l).2
      = l.filterMap (fun v => (env v).map (fun x => (v, x))) := by
  induction l with
  | nil => rfl
  | cons v vs ih =>
    unfold Simulink.readOutputs
    cases henv : env v <;> simp [henv, ih]

theorem readOutputs_warn_mem (env : String → Option Val) {l : List String}
    {v : String} (hv : v ∈ l) (hnone : env v = none) :
    Event.warn ("Could not read '" ++ v ++ "'") ∈ (Simulink.readOutputs env l).1 := by
  induction l with
  | nil => cases hv
  | cons w ws ih =>
    unfold Simulink.readOutputs
    rcases List.mem_cons.mp hv with rfl | hv'
    · rw [hnone]
      simp
    · cases henv : env w <;> simp [ih hv']

theorem readAttempts_readOutputs (env : String → Option Val) (l : List String) :
    readAttempts (Simulink.readOutputs env l).1 = l := by
  induction l with
  | nil => rfl
  | cons v vs ih =>
    unfold Simulink.readOutputs
    cases henv : env v <;> simp [readAttempts, ih]

theorem setParamsCmd_eq_spec (params : List (String × PValue)) :
    setParamsCmd params = specParamsText params := by
  have gen : ∀ (l : List (String × PValue)) (acc : String),
      l.foldl (fun cmd kv => cmd ++ (kv.1 ++ " = " ++ renderPValue kv.2 ++ "; ")) acc
        = acc ++ specParamsText l := by
    intro l
    induction l with
    | nil => intro acc; rw [List.foldl_nil, specParamsText, String.append_empty]
    | cons kv rest ih =>
      intro acc
      rw [List.foldl_cons, ih, specParamsText, String.append_assoc]
  have h := gen params ""
  rw [String.empty_append] at h
  exact h

/-!
## Heap lemmas
-/

theorem PyHeap.get_alloc_old (h : PyHeap) (v : List String) {r : Nat}
    (hr : r < h.cells.length) :
    (h.alloc v).1.get r = h.get r := by
  unfold PyHeap.alloc PyHeap.get
  exact List.getD_append _ _ _ _ hr

theorem PyHeap.get_alloc_new (h : PyHeap) (v : List String) :
    (h.alloc v).1.get (h.alloc v).2 = v := by
  unfold PyHeap.alloc PyHeap.get
  rw [List.getD_append_right _ _ _ _ (le_refl _)]
  simp

theorem initOutvarsAlloc_get_preserved (h : PyHeap) (r : Nat)
    (hr : r < h.cells.length) :
    (initOutvarsAlloc h r).1.get r = h.get r := by
  unfold initOutvarsAlloc
  rw [PyHeap.get_alloc_old _ _ (by simpa [PyHeap.alloc] using Nat.lt_succ_of_lt hr),
    PyHeap.get_alloc_old _ _ hr]

theorem initOutvarsAlloc_result (h : PyHeap) (r : Nat) :
    (initOutvarsAlloc h r).1.get (initOutvarsAlloc h r).2
      = npUnique (h.get r ++ ["tout"]) := by
  unfold initOutvarsAlloc
  rw [PyHeap.get_alloc_new, PyHeap.get_alloc_new]

/-!
## The claims
-/

/-- C1.  The claim says a second `connect` in succession is a no-op, with
exactly one engine start.  On the code this is false: the guard
`hasattr(self, '__engine')` tests the unmangled attribute name, which no
assignment ever sets (`self.__engine = ...` stores `_Simulink__engine`), so
every session satisfies the hypothesis and *every* `connect` call takes the
startup branch: two successive calls record two engine starts.  This theorem
evaluates the embedded code at the failing input. -/
theorem connect_twice_starts_engine_twice (s : Session)
    (h : "__engine" ∉ s.attrs) :
    countStarts ((Simulink.connect (Simulink.connect s)).trace)
      = countStarts s.trace + 2 := by
  have e1 : Simulink.connect s =
      { s with
        attrs := s.attrs ++ ["_Simulink__engine"],
        trace := s.trace ++
          [Event.notice "Connecting to MATLAB engine...",
           Event.startEngine,
           Event.addpath (pathParent s.path),
           Event.notice "Loading model...",
           Event.evalCmd ("model = '" ++ s.name ++ "';"),
           Event.loadSystem s.name] } := by
    unfold Simulink.connect
    rw [if_neg h]
  have h2 : "__engine" ∉ s.attrs ++ ["_Simulink__engine"] := by
    simp only [List.mem_append, List.mem_singleton]
    rintro (hc | hc)
    · exact h hc
    · exact absurd hc (by decide)
  rw [e1]
  unfold Simulink.connect
  rw [if_neg h2]
  simp [countStarts, List.countP_append, List.countP_cons]

/-- Witness for C1's theorem: a freshly constructed session satisfies the
hypothesis and a double `connect` records two engine starts. -/
theorem connect_twice_starts_engine_twice_witness :
    "__engine" ∉ exampleSession.attrs
    ∧ countStarts ((Simulink.connect (Simulink.connect exampleSession)).trace)
        = countStarts exampleSession.trace + 2 :=
  ⟨by decide, connect_twice_starts_engine_twice exampleSession (by decide)⟩

/-- C2.  The claim says `disconnect` on a connected session (mangled engine
attribute present) closes the model, quits the engine and releases the
handle.  On the code this is false: the guard `hasattr(self, '__engine')`
tests the unmangled name, which is absent on every session the class itself
builds, so `disconnect` only prints the "not running" notice and leaves the
attribute dictionary — including the engine handle — untouched.  This
theorem evaluates the embedded code at the failing input. -/
theorem disconnect_connected_does_nothing (s : Session)
    (hconn : "_Simulink__engine" ∈ s.attrs) (hm : "__engine" ∉ s.attrs) :
    Simulink.disconnect s
      = { s with trace := s.trace ++ [Event.notice "MATLAB engine not running."] } := by
  unfold Simulink.disconnect
  rw [if_neg hm]

/-- Witness for C2's theorem: a session that went through `connect` (so the
mangled engine attribute is present) still gets the no-op branch. -/
theorem disconnect_connected_does_nothing_witness :
    "_Simulink__engine" ∈ exampleConnected.attrs
    ∧ Simulink.disconnect exampleConnected
        = { exampleConnected with
            trace := exampleConnected.trace
              ++ [Event.notice "MATLAB engine not running."] } :=
  ⟨by decide, disconnect_connected_does_nothing exampleConnected (by decide) (by decide)⟩

/-- C8: on a session that holds no engine handle (never connected, or
already disconnected), `disconnect` emits only the "not running" notice and
has no other effect: the returned session differs from the input solely by
that notice, so no `closeSystem` and no `quitEngine` event is recorded and
the attribute dictionary is unchanged. -/
theorem disconnect_not_connected_noop (s : Session)
    (hno : "_Simulink__engine" ∉ s.attrs) (hm : "__engine" ∉ s.attrs) :
    Simulink.disconnect s
      = { s with trace := s.trace ++ [Event.notice "MATLAB engine not running."] } := by
  unfold Simulink.disconnect
  rw [if_neg hm]

/-- Witness for C8's theorem at a concrete never-connected session. -/
theorem disconnect_not_connected_noop_witness :
    ("_Simulink__engine" ∉ exampleSession.attrs ∧ "__engine" ∉ exampleSession.attrs)
    ∧ Simulink.disconnect exampleSession
        = { exampleSession with
            trace := exampleSession.trace
              ++ [Event.notice "MATLAB engine not running."] } :=
  ⟨⟨by decide, by decide⟩,
   disconnect_not_connected_noop exampleSession (by decide) (by decide)⟩

/-- C6: constructing a session with a path that is not in the filesystem
fails with `FileNotFoundError` carrying the interpolated message, and
constructing with an existing path never produces that error (construction
succeeds in the model, where engine startup cannot fail). -/
theorem init_path_validation (fs : List String) (path : String)
    (vs : List String) (c : Bool) :
    (path ∉ fs →
      Simulink.init fs path vs c
        = .error (.fileNotFound ("Path '" ++ path ++ "' does not exist")))
    ∧ (path ∈ fs → ∃ s, Simulink.init fs path vs c = .ok s) := by
  constructor
  · intro h
    unfold Simulink.init
    rw [if_pos h]
  · intro h
    unfold Simulink.init
    rw [if_neg (not_not_intro h)]
    cases c with
    | false => exact ⟨_, by rw [if_neg (by simp)]⟩
    | true => exact ⟨_, by rw [if_pos rfl]⟩

/-- Witness for C6's theorem: a nonexistent path yields `FileNotFoundError`,
an existing one yields a session. -/
theorem init_path_validation_witness :
    Simulink.init ["/m/model.slx"] "/nope.slx" [] false
      = .error (.fileNotFound ("Path '" ++ "/nope.slx" ++ "' does not exist"))
    ∧ ∃ s, Simulink.init ["/m/model.slx"] "/m/model.slx" [] false = .ok s :=
  ⟨(init_path_validation ["/m/model.slx"] "/nope.slx" [] false).1 (by decide),
   (init_path_validation ["/m/model.slx"] "/m/model.slx" [] false).2 (by decide)⟩

/-- C5: whatever list of names the caller supplies (empty, with duplicates,
or already containing `tout`), the constructed session's `outvars` contains
`"tout"`, contains no duplicate entries, and contains exactly the supplied
names plus `"tout"`. -/
theorem outvars_contains_tout_nodup (fs : List String) (path : String)
    (vs : List String) (c : Bool) (s : Session)
    (h : Simulink.init fs path vs c = .ok s) :
    "tout" ∈ s.outvars ∧ s.outvars.Nodup
      ∧ ∀ x, x ∈ s.outvars ↔ (x ∈ vs ∨ x = "tout") := by
  have hov : s.outvars = npUnique (vs ++ ["tout"]) := init_ok_outvars h
  rw [hov]
  refine ⟨mem_npUnique.mpr (by simp), npUnique_nodup _, fun x => ?_⟩
  rw [mem_npUnique]
  simp [List.mem_append]

/-- Witness for C5's theorem: caller list `["y", "tout", "y"]` with
duplicates and an explicit `tout`. -/
theorem outvars_contains_tout_nodup_witness :
    "tout" ∈ exampleSession.outvars ∧ exampleSession.outvars.Nodup
      ∧ ∀ x, x ∈ exampleSession.outvars ↔ (x ∈ ["y", "tout", "y"] ∨ x = "tout") :=
  outvars_contains_tout_nodup ["/m/model.slx"] "/m/model.slx" ["y", "tout", "y"]
    false exampleSession rfl

/-- C9: the normalised `outvars` of a constructed session is strictly
ascending in lexicographic order; `run` makes its per-name retrieval
attempts exactly in that list order (the trace events after the simulation
command, projected to retrieval attempts, are exactly `outvars`); and the
normalisation is invariant under reordering of the caller's list. -/
theorem outvars_sorted_and_run_order (fs : List String) (path : String)
    (vs : List String) (c : Bool) (s : Session)
    (h : Simulink.init fs path vs c = .ok s) :
    s.outvars.Sorted (· < ·)
    ∧ (∀ (env : String → Option Val) (a b : Int) (s' : Session)
        (out : List (String × Val)),
        Simulink.run env s a b = .ok (s', out) →
        readAttempts (s'.trace.drop (s.trace.length + 1)) = s.outvars)
    ∧ ∀ ws, vs.Perm ws → npUnique (ws ++ ["tout"]) = s.outvars := by
  have hov : s.outvars = npUnique (vs ++ ["tout"]) := init_ok_outvars h
  refine ⟨hov ▸ npUnique_sorted_lt _, ?_, ?_⟩
  · intro env a b s' out hrun
    by_cases hm : "_Simulink__engine" ∈ s.attrs
    · simp only [Simulink.run, if_pos hm, Except.ok.injEq, Prod.mk.injEq] at hrun
      obtain ⟨hs', _⟩ := hrun
      rw [← hs']
      show readAttempts ((s.trace
          ++ Event.evalCmd (Simulink.runSimCmd a b)
            :: (Simulink.readOutputs env s.outvars).1).drop (s.trace.length + 1))
        = s.outvars
      rw [List.append_cons]
      have hlen : s.trace.length + 1
          = (s.trace ++ [Event.evalCmd (Simulink.runSimCmd a b)]).length := by
        simp
      rw [hlen, List.drop_left]
      exact readAttempts_readOutputs env s.outvars
    · simp only [Simulink.run, if_neg hm] at hrun
      cases hrun
  · intro ws hp
    rw [hov]
    exact npUnique_perm_congr (hp.append_right _).symm

/-- Witness for C9's theorem at a concretely constructed session. -/
theorem outvars_sorted_and_run_order_witness :
    exampleSession.outvars.Sorted (· < ·)
    ∧ (∀ (env : String → Option Val) (a b : Int) (s' : Session)
        (out : List (String × Val)),
        Simulink.run env exampleSession a b = .ok (s', out) →
        readAttempts (s'.trace.drop (exampleSession.trace.length + 1))
          = exampleSession.outvars)
    ∧ ∀ ws, List.Perm ["y", "tout", "y"] ws →
        npUnique (ws ++ ["tout"]) = exampleSession.outvars :=
  outvars_sorted_and_run_order ["/m/model.slx"] "/m/model.slx" ["y", "tout", "y"]
    false exampleSession rfl

/-- C3: on a connected session, `run` returns normally with exactly the
successfully read names in its mapping — a name whose field bind or
conversion fails is skipped, a warning for it is printed, and the loop
continues with the remaining names. -/
theorem run_swallows_output_failures (env : String → Option Val) (s : Session)
    (a b : Int) (h : "_Simulink__engine" ∈ s.attrs) :
    ∃ s', Simulink.run env s a b
        = .ok (s', s.outvars.filterMap (fun v => (env v).map (fun x => (v, x))))
      ∧ ∀ v ∈ s.outvars, env v = none →
          Event.warn ("Could not read '" ++ v ++ "'") ∈ s'.trace := by
  refine ⟨{ s with trace := s.trace
      ++ Event.evalCmd (Simulink.runSimCmd a b)
        :: (Simulink.readOutputs env s.outvars).1 }, ?_, ?_⟩
  · simp only [Simulink.run, if_pos h, readOutputs_snd]
  · intro v hv hnone
    show Event.warn ("Could not read '" ++ v ++ "'")
      ∈ s.trace ++ Event.evalCmd (Simulink.runSimCmd a b)
          :: (Simulink.readOutputs env s.outvars).1
    exact List.mem_append.mpr (Or.inr (List.mem_cons.mpr
      (Or.inr (readOutputs_warn_mem env hv hnone))))

/-- Witness for C3's theorem: the engine result exposes `tout` but not `y`;
the mapping keeps `tout`, omits `y`, and the warning for `y` is traced. -/
theorem run_swallows_output_failures_witness :
    (∃ s', Simulink.run envTout exampleConnected 0 10
        = .ok (s', exampleConnected.outvars.filterMap
            (fun v => (envTout v).map (fun x => (v, x))))
      ∧ ∀ v ∈ exampleConnected.outvars, envTout v = none →
          Event.warn ("Could not read '" ++ v ++ "'") ∈ s'.trace)
    ∧ exampleConnected.outvars.filterMap
        (fun v => (envTout v).map (fun x => (v, x))) = [("tout", [0, 1])] :=
  ⟨run_swallows_output_failures envTout exampleConnected 0 10 (by decide),
   by decide⟩

/-- C7: on a connected session, `run` first submits one command that sets
`StartTime` to the decimal text of `start` and `StopTime` to the decimal
text of `stop` and runs `out = sim(model);`, and only after that command do
the retrieval events for the output variables follow in the trace. -/
theorem run_sim_command_first (env : String → Option Val) (s : Session)
    (a b : Int) (h : "_Simulink__engine" ∈ s.attrs) :
    Simulink.run env s a b
      = .ok ({ s with trace := s.trace
            ++ Event.evalCmd ("\n        set_param(model, 'StartTime', '"
                ++ toString a ++ "', 'StopTime', '" ++ toString b
                ++ "');\n        out = sim(model);\n        ")
            :: (Simulink.readOutputs env s.outvars).1 },
          (Simulink.readOutputs env s.outvars).2) := by
  simp only [Simulink.run, if_pos h]
  rfl

/-- Witness for C7's theorem at `start = 0`, `stop = 10` on a connected
session. -/
theorem run_sim_command_first_witness :
    Simulink.run envTout exampleConnected 0 10
      = .ok ({ exampleConnected with trace := (exampleConnected.trace
            ++ Event.evalCmd ("\n        set_param(model, 'StartTime', '"
                ++ toString (0 : Int) ++ "', 'StopTime', '" ++ toString (10 : Int)
                ++ "');\n        out = sim(model);\n        ")
            :: (Simulink.readOutputs envTout exampleConnected.outvars).1) },
          (Simulink.readOutputs envTout exampleConnected.outvars).2) :=
  run_sim_command_first envTout exampleConnected 0 10 (by decide)

/-- C4: on a connected session, `set_params` submits to the engine exactly
one evaluation, whose command string is the concatenation, in mapping order,
of one `name = value; ` rendering per entry (string values single-quoted,
numeric values literal); on the claim's example the command is
`Kp = 1.5; mode = 'auto'; `. -/
theorem set_params_single_eval (s : Session) (params : List (String × PValue))
    (h : "_Simulink__engine" ∈ s.attrs) :
    Simulink.set_params s params
      = .ok { s with trace := s.trace ++ [Event.evalCmd (specParamsText params)] }
    ∧ setParamsCmd [("Kp", .pfloat "1.5"), ("mode", .pstr "auto")]
      = "Kp = 1.5; mode = 'auto'; " := by
  constructor
  · unfold Simulink.set_params
    rw [if_pos h, setParamsCmd_eq_spec]
  · rfl

/-- Witness for C4's theorem on a connected session with the example
mapping from the claim. -/
theorem set_params_single_eval_witness :
    Simulink.set_params exampleConnected [("Kp", .pfloat "1.5"), ("mode", .pstr "auto")]
      = .ok { exampleConnected with trace := exampleConnected.trace
          ++ [Event.evalCmd (specParamsText
                [("Kp", .pfloat "1.5"), ("mode", .pstr "auto")])] }
    ∧ setParamsCmd [("Kp", .pfloat "1.5"), ("mode", .pstr "auto")]
      = "Kp = 1.5; mode = 'auto'; " :=
  set_params_single_eval exampleConnected
    [("Kp", .pfloat "1.5"), ("mode", .pstr "auto")] (by decide)

/-- C10: under the explicit heap semantics of `__init__`'s outvars
normalisation, the caller's list cell is left unchanged (the concatenation
and the `np.unique(...).tolist()` step allocate fresh cells); in particular
a shared default-argument cell holding `['tout']` still holds `['tout']`
after a construction, the session's own list is a fresh cell holding
`['tout']`, and a second construction through the same cell sees `['tout']`
again. -/
theorem init_does_not_mutate_caller_list (h : PyHeap) (r : Nat)
    (hr : r < h.cells.length) :
    (initOutvarsAlloc h r).1.get r = h.get r
    ∧ (h.get r = ["tout"] →
        (initOutvarsAlloc h r).1.get r = ["tout"]
        ∧ (initOutvarsAlloc h r).1.get (initOutvarsAlloc h r).2 = ["tout"]
        ∧ (initOutvarsAlloc (initOutvarsAlloc h r).1 r).1.get r = ["tout"]) := by
  have hpres := initOutvarsAlloc_get_preserved h r hr
  refine ⟨hpres, fun hd => ⟨hpres.trans hd, ?_, ?_⟩⟩
  · rw [initOutvarsAlloc_result, hd]
    decide
  · have hr2 : r < (initOutvarsAlloc h r).1.cells.length := by
      unfold initOutvarsAlloc PyHeap.alloc
      simp only [List.length_append, List.length_singleton]
      omega
    rw [initOutvarsAlloc_get_preserved _ r hr2, hpres, hd]

/-- Witness for C10's theorem: a one-cell heap holding the shared default
`['tout']`. -/
theorem init_does_not_mutate_caller_list_witness :
    0 < (PyHeap.mk [["tout"]]).cells.length
    ∧ ((initOutvarsAlloc (PyHeap.mk [["tout"]]) 0).1.get 0
        = (PyHeap.mk [["tout"]]).get 0
      ∧ ((PyHeap.mk [["tout"]]).get 0 = ["tout"] →
          (initOutvarsAlloc (PyHeap.mk [["tout"]]) 0).1.get 0 = ["tout"]
          ∧ (initOutvarsAlloc (PyHeap.mk [["tout"]]) 0).1.get
              (initOutvarsAlloc (PyHeap.mk [["tout"]]) 0).2 = ["tout"]
          ∧ (initOutvarsAlloc (initOutvarsAlloc (PyHeap.mk [["tout"]]) 0).1 0).1.get 0
              = ["tout"])) :=
  ⟨by decide, init_does_not_mutate_caller_list (PyHeap.mk [["tout"]]) 0 (by decide)⟩

end PySim
